import Mathlib

/-!
Shallow embedding of the core logic of the Ani-Gui application
(src/Ani-Gui.py): result normalization, episode sorting, the enrichment
cache, the JSON data store, history and library operations, the update
scan and the player command builder.  GUI rendering, threading and the
network transport are abstracted away: remote responses are passed in as
explicit values or response functions, and the filesystem as explicit
association lists from paths (cache keys) to contents.
-/

/-- A normalized result record as produced by AniAPI.format_results.
index is the 1-based position within the returned page, id and title come
from the remote record, episodes is the count for the requested mode, and
synopsis is attached later by the enrichment step (absent until then). -/
structure AnimeItem where
  index : Nat
  id : String
  title : String
  episodes : Int
  synopsis : Option String
deriving DecidableEq

/-- A raw show record from the shows GraphQL response: fields _id, name
and the availableEpisodes map from mode to episode count. -/
structure RawShow where
  _id : String
  name : String
  availableEpisodes : List (String × Int)
deriving DecidableEq

/-- AniAPI.format_results: for index, item in enumerate(data) build a
record with index+1, the remote id and name, and the episode count for
the requested mode, using 0 when the availableEpisodes map lacks the
mode key (dict.get with default 0). -/
def format_results (data : List RawShow) (mode : String) : List AnimeItem :=
  data.enum.map (fun p =>
    { index := p.1 + 1
      id := p.2._id
      title := p.2.name
      episodes := (p.2.availableEpisodes.lookup mode).getD 0
      synopsis := none })

/-- Value of a digit string, most significant digit first. -/
def digitsVal (cs : List Char) : Nat :=
  cs.foldl (fun n c => 10 * n + (c.toNat - 48)) 0

/-- Numeric value of an episode label, modelling the Python float
conversion on plain decimal numerals: digits with an optional fractional
part after a dot, as the episode API produces (12 or 5.5).  A label that
is not a decimal numeral (such as OVA) does not convert, and the float
call on it raises, which strToFloat models by returning none.  The
integer part and the fractional part may each be empty, but not both. -/
def strToFloat (s : String) : Option Rat :=
  let cs := s.toList
  let ip := cs.takeWhile (fun c => c != '.')
  match cs.dropWhile (fun c => c != '.') with
  | [] =>
    if ip ≠ [] ∧ ip.all Char.isDigit then some (digitsVal ip) else none
  | _ :: fp =>
    if ¬ fp.contains '.' ∧ (ip ≠ [] ∨ fp ≠ []) ∧ ip.all Char.isDigit ∧ fp.all Char.isDigit then
      some ((digitsVal ip : Rat) + (digitsVal fp : Rat) / (10 : Rat) ^ fp.length)
    else none

/-- Comparison used by the episode sort: ascending by the float value of
the label.  The getD 0 total-ization is never reached on the paths where
the sort actually runs, because get_episodes sorts only after every label
has converted successfully. -/
def episodeLe (a b : String) : Bool :=
  decide ((strToFloat a).getD 0 ≤ (strToFloat b).getD 0)

/-- AniAPI.get_episodes on an already-fetched availableEpisodesDetail
map: select the label list for the mode (dict.get with default empty
list), then return sorted(episodes_data, key=float).  The sorted builtin
evaluates the key on every element, so a single non-numeric label raises
(error); otherwise the list is returned sorted ascending by float value
(Python sorted and List.mergeSort are both stable). -/
def get_episodes (availableEpisodesDetail : List (String × List String)) (mode : String) :
    Except Unit (List String) :=
  let episodes_data := (availableEpisodesDetail.lookup mode).getD []
  match episodes_data.mapM strToFloat with
  | none => .error ()
  | some _ => .ok (episodes_data.mergeSort episodeLe)

/-- Path of the external player tool. -/
def ANI_CLI_PATH : String := "ani-cli"

/-- The argument list built by run_ani_cli_command once the selection is
complete: base command plus quality, the dub flag when the mode is dub,
the optional action flag (the only caller passing one passes -d for
download), then -S index, -e episode and the query as the final
positional argument. -/
def build_command (quality mode : String) (action_flag : Option String) (index : Nat)
    (episode : String) (query : String) : List String :=
  let command := [ANI_CLI_PATH, "-q", quality]
  let command := if mode == "dub" then command ++ ["--dub"] else command
  let command := match action_flag with
    | some f => command ++ [f]
    | none => command
  command ++ ["-S", toString index, "-e", episode, query]

/-- A watch history entry, as built by add_to_history. -/
structure HistoryEntry where
  title : String
  episode : String
  timestamp : String
  query : String
  index : Nat
deriving DecidableEq

/-- add_to_history: the new entry is appended unless the history is
non-empty and its last entry has the same title and the same episode as
the new one. -/
def add_to_history (history : List HistoryEntry) (new_entry : HistoryEntry) :
    List HistoryEntry :=
  match history.getLast? with
  | none => history ++ [new_entry]
  | some last =>
    if last.title ≠ new_entry.title ∨ last.episode ≠ new_entry.episode then
      history ++ [new_entry]
    else history

/-- remove_from_library: when the id is a key of the library mapping, pop
it and report the removed title for the status message; otherwise do
nothing. -/
def remove_from_library (library : List (String × AnimeItem)) (item_id : String) :
    List (String × AnimeItem) × Option String :=
  match library.lookup item_id with
  | some item => (library.eraseP (fun p => p.1 == item_id), some item.title)
  | none => (library, none)

/-- A JSON value, as produced by json.load on the data file. -/
inductive Json where
  | null : Json
  | bool : Bool → Json
  | num : Int → Json
  | str : String → Json
  | arr : List Json → Json
  | obj : List (String × Json) → Json

/-- The in-memory data of the DataManager: a Python dict from string keys
to JSON values, kept in insertion order. -/
abbrev StoreData := List (String × Json)

/-- Python dict assignment d[k] = v: replace the value of an existing key
in place, otherwise append the new binding at the end (insertion order is
preserved). -/
def setKey (d : StoreData) (k : String) (v : Json) : StoreData :=
  if d.any (fun p => p.1 == k) then
    d.map (fun p => if p.1 == k then (k, v) else p)
  else d ++ [(k, v)]

/-- Python dict.update(j) on the loaded JSON document: a JSON object
merges its bindings; any other JSON value raises (TypeError on a
non-iterable, ValueError on malformed pair sequences), which the except
clause of load does not catch.  The exotic iterables Python would also
accept (pair lists, two-character strings) are conservatively modelled:
arrays of [string, value] pairs merge, and other array elements raise;
no theorem below depends on the array corner cases. -/
def dictUpdate (d : StoreData) (j : Json) : Except Unit StoreData :=
  match j with
  | .obj kvs => .ok (kvs.foldl (fun acc p => setKey acc p.1 p.2) d)
  | .arr xs =>
    xs.foldlM (fun acc x =>
      match x with
      | .arr [Json.str k, v] => .ok (setKey acc k v)
      | _ => .error ()) d
  | _ => .error ()

/-- State of the data file on disk as seen by DataManager.load: absent,
unreadable (IOError on open or read), present but not valid JSON
(json.JSONDecodeError), or well formed with the given JSON document. -/
inductive FileState where
  | absent : FileState
  | unreadable : FileState
  | malformed : FileState
  | wellFormed : Json → FileState

namespace DataManager

/-- DataManager._load_defaults: empty history list and empty library
mapping. -/
def load_defaults : StoreData := [("history", Json.arr []), ("library", Json.obj [])]

/-- DataManager.load: when the file is absent the data is left unchanged;
JSONDecodeError and IOError are caught and reset the data to the
defaults; a well formed document is merged over the defaults with
dict.update, whose own failures (non-object document) are not caught and
propagate to the caller (error). -/
def load (prev : StoreData) (file : FileState) : Except Unit StoreData :=
  match file with
  | .absent => .ok prev
  | .unreadable => .ok load_defaults
  | .malformed => .ok load_defaults
  | .wellFormed j =>
    match dictUpdate load_defaults j with
    | .ok d => .ok d
    | .error e => .error e

end DataManager

/-- Body of the library update loop in _check_for_updates_thread for one
entry: among the fresh search results find the first whose id equals the
stored id; when found and its episode count strictly exceeds the stored
count, store the new count and mark the entry as updated. -/
def check_update_entry (search_results : List AnimeItem) (item_id : String)
    (item_data : AnimeItem) : AnimeItem × Bool :=
  match search_results.find? (fun res => res.id == item_id) with
  | some latest_data =>
    if latest_data.episodes > item_data.episodes then
      ({ item_data with episodes := latest_data.episodes }, true)
    else (item_data, false)
  | none => (item_data, false)

/-- _check_for_updates_thread: walk the library in order, re-running the
search on each stored title (the search function stands for
self.api.search with the current mode) and applying check_update_entry;
return the updated library mapping together with the list of entries
whose count increased, in library order. -/
def check_for_updates_thread (search : String → List AnimeItem)
    (library : List (String × AnimeItem)) : List (String × AnimeItem) × List AnimeItem :=
  match library with
  | [] => ([], [])
  | (item_id, item_data) :: rest =>
    let r := check_update_entry (search item_data.title) item_id item_data
    let rec_rest := check_for_updates_thread search rest
    ((item_id, r.1) :: rec_rest.1, (if r.2 then [r.1] else []) ++ rec_rest.2)

/-- The slice of the GUI state that _run_ani_cli_command reads and
writes.  selected_anime_index and selected_episode start as None in the
constructor, modelled by none; last_query starts as the empty string. -/
structure AppState where
  last_query : String
  selected_anime_index : Option Nat
  selected_anime_title : String
  selected_episode : Option String
  quality : String
  mode : String
  history : List HistoryEntry
  library : List (String × AnimeItem)
  status : String
deriving DecidableEq

/-- The validation at the top of _run_ani_cli_command:
not all([last_query, selected_anime_index, selected_episode]) under
Python truthiness, so the empty query, a missing or zero index, and a
missing or empty episode label all count as incomplete. -/
def selection_incomplete (st : AppState) : Bool :=
  !((st.last_query != "")
    && (match st.selected_anime_index with | none => false | some n => n != 0)
    && (match st.selected_episode with | none => false | some e => e != ""))

/-- _run_ani_cli_command: on an incomplete selection set the error status
and return without spawning; otherwise build the player command and spawn
it (popen_ok says whether subprocess.Popen succeeded; on failure the
status reports the failure and nothing else happens).  After a successful
play launch (no action flag) the history entry is recorded; now stands
for the timestamp taken by add_to_history.  The quoted show title inside
the f-string statuses is elided, and the status update add_to_history
itself performs on append is not tracked here. -/
def run_ani_cli_command (st : AppState) (action_flag : Option String) (now : String)
    (popen_ok : Bool) : AppState × Option (List String) :=
  if selection_incomplete st then
    ({ st with status := "Error: Search query, anime, and episode must be selected." }, none)
  else
    let index := st.selected_anime_index.getD 0
    let episode := st.selected_episode.getD ""
    let command := build_command st.quality st.mode action_flag index episode st.last_query
    let action := if action_flag.isSome then "Downloading" else "Playing"
    let st1 := { st with status := action ++ " Ep " ++ episode ++ " of " ++ st.selected_anime_title }
    if popen_ok then
      match action_flag with
      | none =>
        ({ st1 with
            history := add_to_history st1.history
              ⟨st.selected_anime_title, episode, now, st.last_query, index⟩ }, some command)
      | some _ => (st1, some command)
    else ({ st1 with status := "Failed to execute command" }, none)

/-- First candidate of a Jikan query response.  The images field models
the nested lookup data[0][images][jpg][image_url]: none when the images
key is absent (the guard skips to the fallback), some none when the key
is present but the inner path is missing (the access raises), and
some (some url) for the thumbnail URL.  synopsis is none when the
synopsis key is absent (dict.get default). -/
structure JikanEntry where
  images : Option (Option String)
  synopsis : Option String
deriving DecidableEq

/-- The on-disk enrichment cache: an image file and a metadata JSON file
per cache key (the hash of the title).  A meta value of none models a
metadata file without the synopsis key; files the program itself writes
always carry the key.  File contents written by the program always parse
back, so read failures on self-written files are not modelled. -/
structure CacheFS where
  img : List (String × String)
  meta : List (String × Option String)
deriving DecidableEq

/-- The thumbnail stored in the image cache for a record: either the
fixed placeholder or a decoded image, identified by its raw bytes
(Image.open is abstracted as the identity on the byte string). -/
inductive Thumb where
  | placeholder : Thumb
  | image : String → Thumb
deriving DecidableEq

/-- Result of one enrichment: the cache filesystem afterwards, the
mutated record, the thumbnail cached for its id, and whether a secondary
API request was issued. -/
structure EnrichResult where
  fs : CacheFS
  item : AnimeItem
  thumb : Thumb
  apiCalled : Bool
deriving DecidableEq

/-- The shared tail of every failure path of _fetch_details_for_item
(lines 528 and 529, also reached when the response has no usable
candidate): default synopsis and placeholder thumbnail.  Every path
reaching it has already issued the Jikan request. -/
def fetch_fallback (fs : CacheFS) (anime_item : AnimeItem) : EnrichResult :=
  { fs := fs
    item := { anime_item with synopsis := some "No description available." }
    thumb := .placeholder
    apiCalled := true }

/-- _fetch_details_for_item: when both cache files for the hashed title
exist, serve synopsis and image from them without any request; otherwise
query Jikan (md5 is the cache key hash, jikan the rate-limited title
query, fetch_image the image download).  On a usable candidate the
synopsis is written to the metadata file before the image download, so a
failed download leaves a metadata file without an image file; any
failure falls back to the default synopsis and the placeholder. -/
def fetch_details_for_item (md5 : String → String)
    (jikan : String → Except Unit (List JikanEntry))
    (fetch_image : String → Except Unit String)
    (fs : CacheFS) (anime_item : AnimeItem) : EnrichResult :=
  let cache_base := md5 anime_item.title
  match fs.img.lookup cache_base, fs.meta.lookup cache_base with
  | some bytes, some meta =>
    { fs := fs
      item := { anime_item with synopsis := some (meta.getD "No description.") }
      thumb := .image bytes
      apiCalled := false }
  | _, _ =>
    match jikan anime_item.title with
    | .error _ => fetch_fallback fs anime_item
    | .ok [] => fetch_fallback fs anime_item
    | .ok (d :: _) =>
      match d.images with
      | none => fetch_fallback fs anime_item
      | some none => fetch_fallback fs anime_item
      | some (some image_url) =>
        let synopsis := d.synopsis.getD "No description available."
        let fs1 : CacheFS := { fs with meta := (cache_base, some synopsis) :: fs.meta }
        match fetch_image image_url with
        | .error _ => fetch_fallback fs1 anime_item
        | .ok bytes =>
          let fs2 : CacheFS := { fs1 with img := (cache_base, bytes) :: fs1.img }
          { fs := fs2
            item := { anime_item with synopsis := some synopsis }
            thumb := .image bytes
            apiCalled := true }

/-- C3: appending a history entry that repeats the (title, episode) pair
of the current last entry leaves the history unchanged; appending to an
empty history, or appending an entry that differs from the last entry in
title or in episode, extends the history by exactly that entry at the
end. -/
theorem add_to_history_spec (history : List HistoryEntry) (e : HistoryEntry) :
    (∀ last, history.getLast? = some last → last.title = e.title → last.episode = e.episode →
      add_to_history history e = history) ∧
    (history = [] → add_to_history history e = history ++ [e]) ∧
    (∀ last, history.getLast? = some last → (last.title ≠ e.title ∨ last.episode ≠ e.episode) →
      add_to_history history e = history ++ [e]) := by
  refine ⟨?_, ?_, ?_⟩
  · intro last hlast ht he
    unfold add_to_history
    rw [hlast]
    simp [ht, he]
  · intro h
    subst h
    rfl
  · intro last hlast hne
    unfold add_to_history
    rw [hlast]
    simp [hne]

/-- Closed witness for add_to_history_spec: a consecutive replay is
suppressed, while appending to an empty history or after a different
episode extends the history. -/
theorem add_to_history_spec_witness :
    add_to_history [⟨"A", "1", "t0", "q", 1⟩] ⟨"A", "1", "t1", "q", 1⟩
      = [⟨"A", "1", "t0", "q", 1⟩] ∧
    add_to_history [] ⟨"A", "1", "t1", "q", 1⟩ = [⟨"A", "1", "t1", "q", 1⟩] ∧
    add_to_history [⟨"A", "1", "t0", "q", 1⟩] ⟨"A", "2", "t1", "q", 1⟩
      = [⟨"A", "1", "t0", "q", 1⟩, ⟨"A", "2", "t1", "q", 1⟩] :=
  ⟨(add_to_history_spec _ _).1 _ rfl rfl rfl,
   (add_to_history_spec _ _).2.1 rfl,
   (add_to_history_spec _ _).2.2 _ rfl (Or.inr (by decide))⟩

/-- C6: with quality 720p, mode dub, index 3, episode 12 and query
Example, the built player argument list is exactly the base command
followed by -q 720p, --dub, -S 3, -e 12 and the query as the final
positional argument; in download mode the -d action flag additionally
appears after --dub and before -S. -/
theorem build_command_spec :
    build_command "720p" "dub" none 3 "12" "Example"
      = [ANI_CLI_PATH, "-q", "720p", "--dub", "-S", "3", "-e", "12", "Example"] ∧
    build_command "720p" "dub" (some "-d") 3 "12" "Example"
      = [ANI_CLI_PATH, "-q", "720p", "--dub", "-d", "-S", "3", "-e", "12", "Example"] := by
  exact ⟨rfl, rfl⟩

/-- C10: removing an id that is not a key of the library mapping is a
no-op: the mapping is returned unchanged and no removal is reported. -/
theorem remove_from_library_noop (library : List (String × AnimeItem)) (item_id : String)
    (h : library.lookup item_id = none) :
    remove_from_library library item_id = (library, none) := by
  unfold remove_from_library
  rw [h]

/-- Closed witness for remove_from_library_noop on a one-entry library
and an absent id. -/
theorem remove_from_library_noop_witness :
    remove_from_library [("idA", ⟨1, "idA", "Title A", 5, none⟩)] "idB"
      = ([("idA", ⟨1, "idA", "Title A", 5, none⟩)], none) :=
  remove_from_library_noop _ _ (by decide)

/-- On the Option monad, mapM succeeds as soon as the function succeeds
on every element of the list. -/
theorem exists_mapM_option {α β : Type} (f : α → Option β) (l : List α) :
    (∀ s ∈ l, (f s).isSome) → ∃ ys, l.mapM f = some ys := by
  induction l with
  | nil => intro _; exact ⟨[], rfl⟩
  | cons a t ih =>
    intro h
    obtain ⟨b, hb⟩ := Option.isSome_iff_exists.mp (h a (by simp))
    obtain ⟨ys, hys⟩ := ih (fun s hs => h s (by simp [hs]))
    exact ⟨b :: ys, by rw [List.mapM_cons, hb, hys]; rfl⟩

/-- C5: get_episodes selects the episode label list for the requested
mode from the detail map, the empty list when the mode key is absent,
and, provided every selected label converts to a number, returns exactly
that list reordered ascending by the numeric value of each label. -/
theorem get_episodes_sorted (availableEpisodesDetail : List (String × List String))
    (mode : String)
    (h : ∀ s ∈ (availableEpisodesDetail.lookup mode).getD [], (strToFloat s).isSome) :
    ∃ r, get_episodes availableEpisodesDetail mode = .ok r ∧
      r.Perm ((availableEpisodesDetail.lookup mode).getD []) ∧
      r.Pairwise (fun a b => (strToFloat a).getD 0 ≤ ((strToFloat b).getD 0 : Rat)) := by
  obtain ⟨ys, hys⟩ := exists_mapM_option strToFloat _ h
  have htrans : ∀ (a b c : String), episodeLe a b → episodeLe b c → episodeLe a c := by
    intro a b c hab hbc
    simp only [episodeLe, decide_eq_true_eq] at hab hbc ⊢
    exact le_trans hab hbc
  have htotal : ∀ (a b : String), episodeLe a b || episodeLe b a := by
    intro a b
    simp only [episodeLe, Bool.or_eq_true, decide_eq_true_eq]
    exact le_total _ _
  refine ⟨((availableEpisodesDetail.lookup mode).getD []).mergeSort episodeLe, ?_,
    List.mergeSort_perm _ _, ?_⟩
  · simp only [get_episodes]
    rw [hys]
  · have hs := List.sorted_mergeSort htrans htotal
      ((availableEpisodesDetail.lookup mode).getD [])
    exact hs.imp (fun hab => by simpa [episodeLe, decide_eq_true_eq] using hab)

unseal List.merge List.mergeSort in
/-- Closed witness for get_episodes_sorted: on the detail map with sub
labels 2, 10, 1 the selected list is returned as 1, 2, 10, sorted
numerically rather than lexicographically. -/
theorem get_episodes_sorted_witness :
    get_episodes [("sub", ["2", "10", "1"])] "sub" = Except.ok ["1", "2", "10"] ∧
    ∃ r, get_episodes [("sub", ["2", "10", "1"])] "sub" = .ok r ∧
      r.Perm ((([("sub", ["2", "10", "1"])] : List (String × List String)).lookup "sub").getD []) ∧
      r.Pairwise (fun a b => (strToFloat a).getD 0 ≤ ((strToFloat b).getD 0 : Rat)) :=
  ⟨by rfl, get_episodes_sorted _ _ (by decide)⟩

/-- C8: get_episodes returns normally on every detail map whose selected
label list converts entirely to numbers, and on a selected list
containing the non-numeric label OVA it raises (the float sort key has
no fallback ordering). -/
theorem get_episodes_total_iff_numeric :
    (∀ (availableEpisodesDetail : List (String × List String)) (mode : String),
        (∀ s ∈ (availableEpisodesDetail.lookup mode).getD [], (strToFloat s).isSome) →
        ∃ r, get_episodes availableEpisodesDetail mode = .ok r) ∧
    get_episodes [("sub", ["1", "OVA"])] "sub" = .error () := by
  constructor
  · intro d mode h
    obtain ⟨ys, hys⟩ := exists_mapM_option strToFloat _ h
    exact ⟨_, by simp only [get_episodes]; rw [hys]⟩
  · rfl

/-- Closed witness for get_episodes_total_iff_numeric: an all-numeric
list returns normally while a list containing OVA raises. -/
theorem get_episodes_total_iff_numeric_witness :
    (∃ r, get_episodes [("sub", ["3", "1.5"])] "sub" = .ok r) ∧
    get_episodes [("sub", ["1", "OVA"])] "sub" = .error () :=
  ⟨get_episodes_total_iff_numeric.1 _ _ (by decide), get_episodes_total_iff_numeric.2⟩

/-- C9: format_results keeps the page length; each record whose raw show
lacks the requested mode key in availableEpisodes carries episode count 0
(a present field, not an error), and, the remote counts being
non-negative, every normalized record carries a non-negative count. -/
theorem format_results_episodes (data : List RawShow) (mode : String)
    (h : ∀ item ∈ data, ∀ p ∈ item.availableEpisodes, 0 ≤ p.2) :
    (format_results data mode).length = data.length ∧
    (∀ r ∈ format_results data mode, 0 ≤ r.episodes) ∧
    (∀ i item, data[i]? = some item → item.availableEpisodes.lookup mode = none →
      ∃ r, (format_results data mode)[i]? = some r ∧ r.index = i + 1 ∧ r.episodes = 0) := by
  refine ⟨?_, ?_, ?_⟩
  · simp [format_results]
  · intro r hr
    simp only [format_results, List.mem_map] at hr
    obtain ⟨p, hp, rfl⟩ := hr
    have hmem : p.2 ∈ data := by
      obtain ⟨i, a⟩ := p
      have := List.mk_mem_enum_iff_getElem?.mp hp
      exact List.mem_iff_getElem?.mpr ⟨i, this⟩
    cases hlu : p.2.availableEpisodes.lookup mode with
    | none => simp [hlu]
    | some v =>
      obtain ⟨l₁, l₂, heq, -⟩ := List.lookup_eq_some_iff.mp hlu
      have hv : (mode, v) ∈ p.2.availableEpisodes := by
        rw [heq]; simp
      have := h p.2 hmem (mode, v) hv
      simpa [hlu] using this
  · intro i item hi hlu
    refine ⟨{ index := i + 1, id := item._id, title := item.name,
              episodes := (item.availableEpisodes.lookup mode).getD 0,
              synopsis := none }, ?_, rfl, ?_⟩
    · simp [format_results, List.getElem?_enum, hi]
    · simp [hlu]

/-- Closed witness for format_results_episodes on a one-show page whose
availableEpisodes map lacks the dub key. -/
theorem format_results_episodes_witness :
    ∃ r, (format_results [⟨"A", "Show A", [("sub", 12)]⟩] "dub")[0]? = some r ∧
      r.index = 0 + 1 ∧ r.episodes = 0 :=
  (format_results_episodes _ _ (by decide)).2.2 0 ⟨"A", "Show A", [("sub", 12)]⟩ rfl
    (by decide)

/-- C4 counterexample: a data file holding the well formed JSON document
5 is neither a parse failure nor an I/O failure, but dict.update on a
non-dict raises a TypeError that the except clause of load does not
catch, so load propagates an exception instead of never raising. -/
theorem load_nonobject_raises :
    DataManager.load DataManager.load_defaults (FileState.wellFormed (Json.num 5))
      = .error () := rfl


/-- In-place reassignment of one key of a dict leaves the lookup of any
other key unchanged. -/
theorem lookup_map_setKey (t : List (String × Json)) (k k2 : String) (v : Json)
    (h : (k == k2) = false) :
    (t.map (fun p => if p.1 == k2 then (k2, v) else p)).lookup k = t.lookup k := by
  induction t with
  | nil => rfl
  | cons p t ih =>
    obtain ⟨a, b⟩ := p
    rw [List.map_cons]
    by_cases hp : (a == k2) = true
    · have hp2 : a = k2 := by simpa using hp
      subst hp2
      rw [show (if ((a, b).1 == a) = true then (a, v) else (a, b)) = (a, v) from if_pos hp]
      simp only [List.lookup, h]
      exact ih
    · have hpf : (a == k2) = false := by simpa using hp
      rw [show (if ((a, b).1 == k2) = true then (k2, v) else (a, b)) = (a, b) from
        if_neg (by simp [hpf])]
      cases hk : (k == a)
      · simp only [List.lookup, hk]
        exact ih
      · simp only [List.lookup, hk]

/-- A key distinct from the assigned one is unaffected by a Python dict
assignment, whether the assigned key already existed or was appended. -/
theorem lookup_setKey_ne (d : StoreData) (k k2 : String) (v : Json) (h : (k == k2) = false) :
    (setKey d k2 v).lookup k = d.lookup k := by
  unfold setKey
  split
  · exact lookup_map_setKey d k k2 v h
  · rw [List.lookup_append]
    have h2 : List.lookup k [(k2, v)] = none := by simp [List.lookup, h]
    rw [h2, Option.or_none]

/-- Folding Python dict assignments over the bindings of a document
leaves every key the document does not mention unchanged. -/
theorem lookup_foldl_setKey_ne (kvs : List (String × Json)) (d : StoreData) (k : String)
    (h : kvs.lookup k = none) :
    (kvs.foldl (fun acc p => setKey acc p.1 p.2) d).lookup k = d.lookup k := by
  induction kvs generalizing d with
  | nil => rfl
  | cons p t ih =>
    obtain ⟨a, b⟩ := p
    cases hbk : (k == a) with
    | true => simp [List.lookup, hbk] at h
    | false =>
      simp only [List.lookup, hbk] at h
      simp only [List.foldl_cons]
      rw [ih _ h, lookup_setKey_ne _ _ _ _ hbk]

/-- C4 amended: for every file state that is absent, unreadable,
malformed JSON, or a well formed JSON object, load never raises; on a
parse or I/O failure the in-memory data is reset to the empty defaults
(empty history list, empty library mapping), and each top-level key
missing from a well formed object document is filled with its default.
A well formed non-object document (see load_nonobject_raises) instead
raises out of load. -/
theorem DataManager_load_spec (prev : StoreData) (kvs : List (String × Json)) :
    DataManager.load prev FileState.absent = .ok prev ∧
    DataManager.load prev FileState.unreadable = .ok DataManager.load_defaults ∧
    DataManager.load prev FileState.malformed = .ok DataManager.load_defaults ∧
    ∃ d, DataManager.load prev (FileState.wellFormed (Json.obj kvs)) = .ok d ∧
      (kvs.lookup "history" = none → d.lookup "history" = some (Json.arr [])) ∧
      (kvs.lookup "library" = none → d.lookup "library" = some (Json.obj [])) := by
  refine ⟨rfl, rfl, rfl, _, rfl, ?_, ?_⟩
  · intro hh
    rw [lookup_foldl_setKey_ne _ _ _ hh]
    rfl
  · intro hl
    rw [lookup_foldl_setKey_ne _ _ _ hl]
    rfl

/-- Closed witness for DataManager_load_spec: a previously non-empty
in-memory store, and an object document that carries a history key of
its own but no library key, whose single missing key is filled. -/
theorem DataManager_load_spec_witness :
    DataManager.load [("history", Json.arr [Json.null])] FileState.absent
      = .ok [("history", Json.arr [Json.null])] ∧
    DataManager.load [("history", Json.arr [Json.null])] FileState.unreadable
      = .ok DataManager.load_defaults ∧
    DataManager.load [("history", Json.arr [Json.null])] FileState.malformed
      = .ok DataManager.load_defaults ∧
    ∃ d, DataManager.load [("history", Json.arr [Json.null])]
        (FileState.wellFormed (Json.obj [("history", Json.arr [Json.str "x"])])) = .ok d ∧
      d.lookup "library" = some (Json.obj []) := by
  obtain ⟨ha, hu, hm, d, hd, -, hl⟩ :=
    DataManager_load_spec [("history", Json.arr [Json.null])]
      [("history", Json.arr [Json.str "x"])]
  exact ⟨ha, hu, hm, d, hd, hl rfl⟩

/-- The updated library returned by the scan is the pointwise image of
the stored library under the per-entry update. -/
theorem check_for_updates_fst (search : String → List AnimeItem)
    (library : List (String × AnimeItem)) :
    (check_for_updates_thread search library).1
      = library.map (fun p => (p.1, (check_update_entry (search p.2.title) p.1 p.2).1)) := by
  induction library with
  | nil => rfl
  | cons p t ih =>
    obtain ⟨a, b⟩ := p
    simp only [check_for_updates_thread, List.map_cons]
    rw [ih]

/-- The updated set returned by the scan collects, in library order,
exactly the refreshed entries whose remote count strictly exceeded the
stored count. -/
theorem check_for_updates_snd (search : String → List AnimeItem)
    (library : List (String × AnimeItem)) :
    (check_for_updates_thread search library).2
      = library.filterMap (fun p =>
          match (search p.2.title).find? (fun res => res.id == p.1) with
          | some latest_data =>
            if latest_data.episodes > p.2.episodes then
              some { p.2 with episodes := latest_data.episodes }
            else none
          | none => none) := by
  induction library with
  | nil => rfl
  | cons p t ih =>
    obtain ⟨a, b⟩ := p
    simp only [check_for_updates_thread, List.filterMap_cons]
    cases hfind : (search b.title).find? (fun res => res.id == a) with
    | none => simp [check_update_entry, hfind, ih]
    | some latest =>
      by_cases hgt : latest.episodes > b.episodes
      · simp [check_update_entry, hfind, hgt, ih]
      · simp [check_update_entry, hfind, hgt, ih]

/-- C2: for every library entry the scan re-runs the search on the
stored title and looks for the result whose id matches the stored id;
when the remote count strictly exceeds the stored count the stored count
is updated to the remote value and the refreshed entry joins the updated
set, and when the count does not exceed the stored one or no result id
matches, the entry is stored unchanged; the updated set consists of
exactly the entries whose count increased. -/
theorem check_for_updates_spec (search : String → List AnimeItem)
    (library : List (String × AnimeItem)) :
    (check_for_updates_thread search library).1.length = library.length ∧
    (∀ (i : Nat) (item_id : String) (item_data : AnimeItem),
      library[i]? = some (item_id, item_data) →
      match (search item_data.title).find? (fun res => res.id == item_id) with
      | some latest_data =>
        if latest_data.episodes > item_data.episodes then
          (check_for_updates_thread search library).1[i]?
              = some (item_id, { item_data with episodes := latest_data.episodes }) ∧
          { item_data with episodes := latest_data.episodes }
              ∈ (check_for_updates_thread search library).2
        else (check_for_updates_thread search library).1[i]? = some (item_id, item_data)
      | none => (check_for_updates_thread search library).1[i]? = some (item_id, item_data)) ∧
    (check_for_updates_thread search library).2
      = library.filterMap (fun p =>
          match (search p.2.title).find? (fun res => res.id == p.1) with
          | some latest_data =>
            if latest_data.episodes > p.2.episodes then
              some { p.2 with episodes := latest_data.episodes }
            else none
          | none => none) := by
  refine ⟨?_, ?_, check_for_updates_snd search library⟩
  · rw [check_for_updates_fst]
    simp
  · intro i item_id item_data hi
    have h1 : (check_for_updates_thread search library).1[i]?
        = some (item_id, (check_update_entry (search item_data.title) item_id item_data).1) := by
      rw [check_for_updates_fst, List.getElem?_map, hi]
      rfl
    cases hfind : (search item_data.title).find? (fun res => res.id == item_id) with
    | none =>
      simpa [check_update_entry, hfind] using h1
    | some latest =>
      by_cases hgt : latest.episodes > item_data.episodes
      · simp only [hgt, if_true]
        constructor
        · simpa [check_update_entry, hfind, hgt] using h1
        · rw [check_for_updates_snd]
          refine List.mem_filterMap.mpr ⟨(item_id, item_data), ?_, ?_⟩
          · exact List.mem_iff_getElem?.mpr ⟨i, hi⟩
          · simp [hfind, hgt]
      · simp only [hgt, if_false]
        simpa [check_update_entry, hfind, hgt] using h1

/-- Closed witness for check_for_updates_spec, the update scan scenario
of the spec: a library holding id A with 5 stored episodes and a search
that reports 7 episodes for A updates the stored count to 7 and collects
the entry. -/
theorem check_for_updates_spec_witness :
    (check_for_updates_thread
        (fun _ => [⟨1, "A", "Show A", 7, none⟩])
        [("A", ⟨1, "A", "Show A", 5, none⟩)]).1[0]?
      = some ("A", ⟨1, "A", "Show A", 7, none⟩) ∧
    (⟨1, "A", "Show A", 7, none⟩ : AnimeItem)
      ∈ (check_for_updates_thread
          (fun _ => [⟨1, "A", "Show A", 7, none⟩])
          [("A", ⟨1, "A", "Show A", 5, none⟩)]).2 := by
  have h := (check_for_updates_spec
      (fun _ => [⟨1, "A", "Show A", 7, none⟩])
      [("A", ⟨1, "A", "Show A", 5, none⟩)]).2.1 0 "A" ⟨1, "A", "Show A", 5, none⟩ rfl
  revert h
  have hfind : ((fun (_ : String) => [(⟨1, "A", "Show A", 7, none⟩ : AnimeItem)])
        (AnimeItem.title ⟨1, "A", "Show A", 5, none⟩)).find?
      (fun res => res.id == "A") = some ⟨1, "A", "Show A", 7, none⟩ := by decide
  rw [hfind]
  intro h
  exact ⟨h.1, h.2⟩

/-- C7: when the search query, the page-relative anime index, or the
episode label is absent, a play or download request only sets the
selection-incomplete status message and returns: no command is spawned,
the history and the library (and every other state field) are unchanged,
and the function returns normally. -/
theorem run_ani_cli_incomplete (st : AppState) (action_flag : Option String) (now : String)
    (popen_ok : Bool)
    (h : st.last_query = "" ∨ st.selected_anime_index = none ∨ st.selected_episode = none) :
    run_ani_cli_command st action_flag now popen_ok
      = ({ st with status := "Error: Search query, anime, and episode must be selected." },
         none) := by
  have hinc : selection_incomplete st = true := by
    rcases h with h | h | h <;> simp [selection_incomplete, h]
  unfold run_ani_cli_command
  rw [hinc]
  rfl

/-- Closed witness for run_ani_cli_incomplete: a state with a query and
an episode but no selected anime index. -/
theorem run_ani_cli_incomplete_witness :
    run_ani_cli_command
        ⟨"Naruto", none, "Naruto", some "3", "best", "sub", [], [], "Ready"⟩ none "t0" true
      = (⟨"Naruto", none, "Naruto", some "3", "best", "sub", [], [],
          "Error: Search query, anime, and episode must be selected."⟩, none) :=
  run_ani_cli_incomplete _ _ _ _ (Or.inr (Or.inl rfl))

/-- When both cache files for the hashed title exist, an enrichment is a
pure cache read: no request, synopsis from the metadata file, thumbnail
from the image file, filesystem untouched. -/
theorem fetch_details_cache_hit (md5 : String → String)
    (jikan : String → Except Unit (List JikanEntry))
    (fetch_image : String → Except Unit String)
    (fs : CacheFS) (item : AnimeItem) (bytes : String) (meta : Option String)
    (hi : fs.img.lookup (md5 item.title) = some bytes)
    (hm : fs.meta.lookup (md5 item.title) = some meta) :
    fetch_details_for_item md5 jikan fetch_image fs item =
      { fs := fs
        item := { item with synopsis := some (meta.getD "No description.") }
        thumb := .image bytes
        apiCalled := false } := by
  simp only [fetch_details_for_item]
  rw [hi, hm]

/-- Every enrichment is a cache hit, a fully successful fetch that wrote
both cache files, or a fallback that left the placeholder thumbnail. -/
theorem fetch_details_trichotomy (md5 : String → String)
    (jikan : String → Except Unit (List JikanEntry))
    (fetch_image : String → Except Unit String)
    (fs : CacheFS) (item : AnimeItem) :
    (∃ bytes meta, fs.img.lookup (md5 item.title) = some bytes ∧
        fs.meta.lookup (md5 item.title) = some meta) ∨
    (∃ syn bytes,
        fetch_details_for_item md5 jikan fetch_image fs item =
          { fs := { img := (md5 item.title, bytes) :: fs.img,
                    meta := (md5 item.title, some syn) :: fs.meta }
            item := { item with synopsis := some syn }
            thumb := .image bytes
            apiCalled := true }) ∨
    (fetch_details_for_item md5 jikan fetch_image fs item).thumb = Thumb.placeholder := by
  cases hi : fs.img.lookup (md5 item.title) with
  | some bytes =>
    cases hm : fs.meta.lookup (md5 item.title) with
    | some meta => exact Or.inl ⟨bytes, meta, rfl, rfl⟩
    | none =>
      cases hj : jikan item.title with
      | error e =>
        exact Or.inr (Or.inr (by simp [fetch_details_for_item, hi, hm, hj, fetch_fallback]))
      | ok data =>
        cases data with
        | nil =>
          exact Or.inr (Or.inr (by simp [fetch_details_for_item, hi, hm, hj, fetch_fallback]))
        | cons d rest =>
          cases hdi : d.images with
          | none =>
            exact Or.inr (Or.inr (by simp [fetch_details_for_item, hi, hm, hj, hdi, fetch_fallback]))
          | some o =>
            cases o with
            | none =>
              exact Or.inr (Or.inr (by
                simp [fetch_details_for_item, hi, hm, hj, hdi, fetch_fallback]))
            | some url =>
              cases hfi : fetch_image url with
              | error e =>
                exact Or.inr (Or.inr (by
                  simp [fetch_details_for_item, hi, hm, hj, hdi, hfi, fetch_fallback]))
              | ok bytes2 =>
                refine Or.inr (Or.inl ⟨d.synopsis.getD "No description available.", bytes2, ?_⟩)
                simp [fetch_details_for_item, hi, hm, hj, hdi, hfi]
  | none =>
    cases hj : jikan item.title with
    | error e =>
      exact Or.inr (Or.inr (by simp [fetch_details_for_item, hi, hj, fetch_fallback]))
    | ok data =>
      cases data with
      | nil =>
        exact Or.inr (Or.inr (by simp [fetch_details_for_item, hi, hj, fetch_fallback]))
      | cons d rest =>
        cases hdi : d.images with
        | none =>
          exact Or.inr (Or.inr (by simp [fetch_details_for_item, hi, hj, hdi, fetch_fallback]))
        | some o =>
          cases o with
          | none =>
            exact Or.inr (Or.inr (by simp [fetch_details_for_item, hi, hj, hdi, fetch_fallback]))
          | some url =>
            cases hfi : fetch_image url with
            | error e =>
              exact Or.inr (Or.inr (by
                simp [fetch_details_for_item, hi, hj, hdi, hfi, fetch_fallback]))
            | ok bytes2 =>
              refine Or.inr (Or.inl ⟨d.synopsis.getD "No description available.", bytes2, ?_⟩)
              simp [fetch_details_for_item, hi, hj, hdi, hfi]

/-- C1 counterexample: a first enrichment whose Jikan query succeeds
with an empty candidate list takes the fallback and writes no cache
files, so enriching the same record again is not served from the cache
and issues a second secondary-API request, refuting the claim that a
second enrichment never performs a new secondary-API call. -/
theorem fetch_details_roundtrip_counterexample :
    (fetch_details_for_item (fun t => t) (fun _ => .ok []) (fun _ => .error ())
        (fetch_details_for_item (fun t => t) (fun _ => .ok []) (fun _ => .error ())
          ⟨[], []⟩ ⟨1, "id1", "Show", 12, none⟩).fs
        (fetch_details_for_item (fun t => t) (fun _ => .ok []) (fun _ => .error ())
          ⟨[], []⟩ ⟨1, "id1", "Show", 12, none⟩).item).apiCalled = true := by
  decide

/-- C1 amended: after a first enrichment that produced a real
(non-placeholder) image, that is, one served from the cache or one whose
fetch succeeded and wrote both cache files, enriching the resulting
record again issues no secondary-API request and reproduces the same
synopsis and the same image. -/
theorem fetch_details_roundtrip (md5 : String → String)
    (jikan : String → Except Unit (List JikanEntry))
    (fetch_image : String → Except Unit String)
    (fs : CacheFS) (item : AnimeItem)
    (h : (fetch_details_for_item md5 jikan fetch_image fs item).thumb ≠ Thumb.placeholder) :
    (fetch_details_for_item md5 jikan fetch_image
        (fetch_details_for_item md5 jikan fetch_image fs item).fs
        (fetch_details_for_item md5 jikan fetch_image fs item).item).apiCalled = false ∧
    (fetch_details_for_item md5 jikan fetch_image
        (fetch_details_for_item md5 jikan fetch_image fs item).fs
        (fetch_details_for_item md5 jikan fetch_image fs item).item).item.synopsis
      = (fetch_details_for_item md5 jikan fetch_image fs item).item.synopsis ∧
    (fetch_details_for_item md5 jikan fetch_image
        (fetch_details_for_item md5 jikan fetch_image fs item).fs
        (fetch_details_for_item md5 jikan fetch_image fs item).item).thumb
      = (fetch_details_for_item md5 jikan fetch_image fs item).thumb := by
  rcases fetch_details_trichotomy md5 jikan fetch_image fs item with
    ⟨bytes, meta, hi, hm⟩ | ⟨syn, bytes, ho1⟩ | hpl
  · have ho1 := fetch_details_cache_hit md5 jikan fetch_image fs item bytes meta hi hm
    have ho2 := fetch_details_cache_hit md5 jikan fetch_image fs
      { item with synopsis := some (meta.getD "No description.") } bytes meta hi hm
    simp [ho1, ho2]
  · have ho2 := fetch_details_cache_hit md5 jikan fetch_image
      { img := (md5 item.title, bytes) :: fs.img, meta := (md5 item.title, some syn) :: fs.meta }
      { item with synopsis := some syn } bytes (some syn)
      List.lookup_cons_self List.lookup_cons_self
    simp [ho1, ho2]
  · exact absurd hpl h

/-- Closed witness for fetch_details_roundtrip: a fully successful first
enrichment on an empty cache. -/
theorem fetch_details_roundtrip_witness :
    (fetch_details_for_item (fun t => t)
        (fun _ => .ok [⟨some (some "u"), some "Great show"⟩]) (fun _ => .ok "IMGBYTES")
        ⟨[], []⟩ ⟨1, "id1", "Show", 12, none⟩).thumb = Thumb.image "IMGBYTES" ∧
    ((fetch_details_for_item (fun t => t)
        (fun _ => .ok [⟨some (some "u"), some "Great show"⟩]) (fun _ => .ok "IMGBYTES")
        (fetch_details_for_item (fun t => t)
          (fun _ => .ok [⟨some (some "u"), some "Great show"⟩]) (fun _ => .ok "IMGBYTES")
          ⟨[], []⟩ ⟨1, "id1", "Show", 12, none⟩).fs
        (fetch_details_for_item (fun t => t)
          (fun _ => .ok [⟨some (some "u"), some "Great show"⟩]) (fun _ => .ok "IMGBYTES")
          ⟨[], []⟩ ⟨1, "id1", "Show", 12, none⟩).item).apiCalled = false ∧
     (fetch_details_for_item (fun t => t)
        (fun _ => .ok [⟨some (some "u"), some "Great show"⟩]) (fun _ => .ok "IMGBYTES")
        (fetch_details_for_item (fun t => t)
          (fun _ => .ok [⟨some (some "u"), some "Great show"⟩]) (fun _ => .ok "IMGBYTES")
          ⟨[], []⟩ ⟨1, "id1", "Show", 12, none⟩).fs
        (fetch_details_for_item (fun t => t)
          (fun _ => .ok [⟨some (some "u"), some "Great show"⟩]) (fun _ => .ok "IMGBYTES")
          ⟨[], []⟩ ⟨1, "id1", "Show", 12, none⟩).item).item.synopsis
       = (fetch_details_for_item (fun t => t)
          (fun _ => .ok [⟨some (some "u"), some "Great show"⟩]) (fun _ => .ok "IMGBYTES")
          ⟨[], []⟩ ⟨1, "id1", "Show", 12, none⟩).item.synopsis ∧
     (fetch_details_for_item (fun t => t)
        (fun _ => .ok [⟨some (some "u"), some "Great show"⟩]) (fun _ => .ok "IMGBYTES")
        (fetch_details_for_item (fun t => t)
          (fun _ => .ok [⟨some (some "u"), some "Great show"⟩]) (fun _ => .ok "IMGBYTES")
          ⟨[], []⟩ ⟨1, "id1", "Show", 12, none⟩).fs
        (fetch_details_for_item (fun t => t)
          (fun _ => .ok [⟨some (some "u"), some "Great show"⟩]) (fun _ => .ok "IMGBYTES")
          ⟨[], []⟩ ⟨1, "id1", "Show", 12, none⟩).item).thumb
       = (fetch_details_for_item (fun t => t)
          (fun _ => .ok [⟨some (some "u"), some "Great show"⟩]) (fun _ => .ok "IMGBYTES")
          ⟨[], []⟩ ⟨1, "id1", "Show", 12, none⟩).thumb) :=
  ⟨by decide, fetch_details_roundtrip _ _ _ _ _ (by decide)⟩
